import Mathlib

/-!
Verification of the collision-aware grid layout engine of the
`kalshi_trading_terminal` repository.

The embedded code comes from three places in the source tree:

* `src/client/src/services/workspaceStore.ts` — the vanilla workspace store:
  `WorkspaceState`, `addWidget`, `removeWidget`, `getWidgetTitle`,
  `findAvailablePosition`.
* `src/unnamed/part_010` — the vanilla `GridLayout` component: grid constants,
  `hasCollision`, `calculateGridPosition`, `moveWidgetToPosition`,
  `resizeWidget`, the placeholder helpers and the drag/resize event handlers.
* `src/unnamed/part_007` — the older zustand store, whose placement function
  `findNextPosition` (first-fit gap scan, hard-coded 12 columns) differs from
  the vanilla store's `findAvailablePosition` (always bottom-left).

Modelling conventions:

* JavaScript numbers are modelled as `Int` for grid units (all grid
  coordinates are produced by integer arithmetic from integer inputs) and as
  `ℚ` for pixel quantities (an exact model of finite doubles; the concrete
  scenarios below only use pixel values on which IEEE doubles compute
  exactly).  A separate `JNum` model (`Option`-style with an explicit `nan`
  constructor) is used where NaN propagation matters.
* In `workspaceStore.ts` the very same `newLayoutItem` object is pushed into
  the `lg`, `md` and `sm` arrays by `addWidget`, and
  `moveWidgetToPosition` / `resizeWidget` in `part_010` mutate that shared
  object in place (`widgetLayout.x = newX`) before writing the current
  breakpoint's (shallow-copied) array back through `updateLayout`.  The write
  to the shared object is therefore visible in *every* breakpoint's array.
  The embedding makes this heap aliasing explicit: the commit step updates
  the item with the given id in all three breakpoint lists.
* `Date.now()`-based id generation is modelled by passing the fresh id as an
  argument; reachability (`Reach`) carries the freshness assumption that a
  generated id differs from all existing ones.
* DOM-only effects (class names, drag images, console logging, event
  listener bookkeeping) are not part of the state; the placeholder element's
  geometry and its `display` style are modelled because `handleResizeEnd`
  reads them back.
-/

namespace KalshiLayout

-- The batteries `Rat` arithmetic is `@[irreducible]` by default; restore the
-- default reducibility inside this development so that concrete rational
-- computations (pixel arithmetic of the gesture scenarios) evaluate by
-- `decide`.
attribute [local semireducible] Rat.add Rat.sub Rat.mul Rat.inv

/-- Layout item of `react-grid-layout` shape, from
`src/client/src/types/…` (`interface LayoutItem`): id `i`, grid position
`x`,`y`, size `w`,`h` and the minimum-size fields that `addWidget` always
populates from `DEFAULT_WIDGET_SIZES`.  `maxW`/`maxH`/`static` are never set
anywhere in the repository and are omitted. -/
structure LayoutItem where
  i : String
  x : Int
  y : Int
  w : Int
  h : Int
  minW : Int
  minH : Int
deriving DecidableEq, Repr

/-- Grid column count, `GRID_COLS = 12` in `part_010` (`GridLayout`). -/
def GRID_COLS : Int := 12

/-- AABB overlap test from `part_010.hasCollision`:
`item.x < l.x + l.w && item.x + item.w > l.x` and the same on `y`/`h`. -/
def overlaps (a b : LayoutItem) : Bool :=
  (decide (a.x < b.x + b.w) && decide (a.x + a.w > b.x)) &&
  (decide (a.y < b.y + b.h) && decide (a.y + a.h > b.y))

/-- Collision check of `part_010.hasCollision`: some item of the current
layout, other than the excluded id, overlaps the candidate. -/
def hasCollision (layout : List LayoutItem) (item : LayoutItem)
    (excludeId : String) : Bool :=
  layout.any fun l => if l.i == excludeId then false else overlaps item l

/-- Bottom edge of the layout: `Math.max(...layout.map(l => l.y + l.h))`,
defined for a non-empty list (both call sites guard on emptiness). -/
def maxY : List LayoutItem → Int
  | [] => 0
  | l :: ls => ls.foldl (fun acc m => max acc (m.y + m.h)) (l.y + l.h)

/-- Placement function of the vanilla store
(`workspaceStore.ts.findAvailablePosition`): `(0,0)` on an empty layout,
otherwise always the bottom-left position `(0, maxY)` — it never searches
for a gap and ignores the new widget's width. -/
def findAvailablePosition (layout : List LayoutItem) : Int × Int :=
  if layout.isEmpty then (0, 0) else (0, maxY layout)

/-- Items whose vertical span covers row `y`
(`part_007.findNextPosition`: `l.y <= y && l.y + l.h > y`). -/
def itemsInRow (layouts : List LayoutItem) (y : Int) : List LayoutItem :=
  layouts.filter fun l => decide (l.y ≤ y) && decide (l.y + l.h > y)

/-- The `fits` test of `part_007.findNextPosition`:
`!occupiedRanges.some(range => x < range.end && x + newWidth > range.start)`. -/
def rowFits (occupiedRanges : List (Int × Int)) (newWidth x : Int) : Bool :=
  !(occupiedRanges.any fun range =>
    decide (x < range.2) && decide (x + newWidth > range.1))

/-- One row of the first-fit scan of `part_007.findNextPosition`: occupied
horizontal ranges `[l.x, l.x + l.w)` of the items covering row `y`, then the
first `x` in `0 … 12 - newWidth` whose `[x, x + newWidth)` misses all of
them.  The column count 12 is hard-coded in the source. -/
def rowScan (layouts : List LayoutItem) (newWidth y : Int) : Option Int :=
  ((List.range (12 - newWidth + 1).toNat).map fun xn => (xn : Int)).find?
    (rowFits ((itemsInRow layouts y).map fun l => (l.x, l.x + l.w)) newWidth)

/-- Placement function of the zustand store (`part_007.findNextPosition`):
`(0,0)` on an empty layout; otherwise scan rows `0 … maxY` for the first
first-fit gap, and fall back to a new bottom row `(0, maxY)`. -/
def findNextPosition (layouts : List LayoutItem) (newWidth : Int) : Int × Int :=
  if layouts.isEmpty then (0, 0)
  else
    let mY := maxY layouts
    match (List.range (mY + 1).toNat).findSome?
        (fun yn => (rowScan layouts newWidth (yn : Int)).map fun x => (x, (yn : Int))) with
    | some p => p
    | none => (0, mY)

/-- Widget kinds of `types/widget.ts` (`WidgetType`). -/
inductive WidgetType where
  | orderbook
  | chart
  | tradeHistory
  | marketSelector
  | quote
  | watchlist
deriving DecidableEq, Repr

/-- Default size record of `DEFAULT_WIDGET_SIZES`. -/
structure WidgetSize where
  w : Int
  h : Int
  minW : Int
  minH : Int
deriving DecidableEq, Repr

/-- The `DEFAULT_WIDGET_SIZES` table of `types/widget.ts`. -/
def DEFAULT_WIDGET_SIZES : WidgetType → WidgetSize
  | .orderbook => ⟨3, 5, 2, 3⟩
  | .chart => ⟨5, 4, 3, 3⟩
  | .tradeHistory => ⟨3, 4, 2, 3⟩
  | .marketSelector => ⟨3, 6, 2, 3⟩
  | .quote => ⟨3, 4, 2, 3⟩
  | .watchlist => ⟨3, 5, 2, 3⟩

/-- The hyphenated type string of a widget kind (the `WidgetType` union is a
string union in the source). -/
def typeName : WidgetType → String
  | .orderbook => "orderbook"
  | .chart => "chart"
  | .tradeHistory => "trade-history"
  | .marketSelector => "market-selector"
  | .quote => "quote"
  | .watchlist => "watchlist"

/-- JavaScript `word.charAt(0).toUpperCase() + word.slice(1)` (on the ASCII
type names, `toUpperCase` of the first character is `Char.toUpper`). -/
def capitalizeWord (word : String) : String :=
  match word.data with
  | [] => ""
  | c :: rest => String.mk (c.toUpper :: rest)

/-- JavaScript `String.prototype.split(sep)` for a one-character separator,
on the character list of the string. -/
def splitOnChar (sep : Char) : List Char → List (List Char)
  | [] => [[]]
  | c :: cs =>
    match splitOnChar sep cs with
    | [] => [[c]]
    | g :: gs => if c = sep then [] :: g :: gs else (c :: g) :: gs

/-- Title generator of `workspaceStore.ts.getWidgetTitle`: split the type on
`-`, capitalize each word, join with spaces, and append ` - ticker` when a
ticker is given. -/
def getWidgetTitle (t : WidgetType) (ticker : Option String) : String :=
  let baseTitle :=
    String.intercalate " "
      ((splitOnChar '-' (typeName t).data).map fun wd => capitalizeWord (String.mk wd))
  match ticker with
  | some tk => baseTitle ++ " - " ++ tk
  | none => baseTitle

/-- Widget instance of `workspaceStore.ts` (`WidgetInstance`); the opaque
`config` record carries no geometric information and is not modelled. -/
structure WidgetInstance where
  id : String
  type : WidgetType
  ticker : Option String
  title : String
deriving DecidableEq, Repr

/-- Per-breakpoint layout arrays (`WorkspaceLayouts`). -/
structure WorkspaceLayouts where
  lg : List LayoutItem
  md : List LayoutItem
  sm : List LayoutItem
deriving DecidableEq, Repr

/-- Store state of the vanilla workspace store (`WorkspaceState`). -/
structure WorkspaceState where
  widgets : List WidgetInstance
  layouts : WorkspaceLayouts
  currentTicker : Option String
  activeWidgetId : Option String
deriving DecidableEq, Repr

/-- The `initialState` of `workspaceStore.ts`. -/
def initialState : WorkspaceState :=
  { widgets := []
    layouts := { lg := [], md := [], sm := [] }
    currentTicker := none
    activeWidgetId := none }

/-- Vanilla `workspaceStore.ts.addWidget`.  The fresh id
(`` `${type}-${Date.now()}` `` in the source) is passed as `newId`.  The
position is computed from the `lg` layout only, and the *same* item
(`newLayoutItem`, a single shared heap object in the source) is appended to
all three breakpoint arrays. -/
def addWidget (s : WorkspaceState) (t : WidgetType) (ticker : Option String)
    (newId : String) : WorkspaceState :=
  let size := DEFAULT_WIDGET_SIZES t
  let position := findAvailablePosition s.layouts.lg
  let newLayoutItem : LayoutItem :=
    { i := newId, x := position.1, y := position.2, w := size.w, h := size.h
      minW := size.minW, minH := size.minH }
  let newWidget : WidgetInstance :=
    { id := newId, type := t, ticker := ticker, title := getWidgetTitle t ticker }
  { s with
    widgets := s.widgets ++ [newWidget]
    layouts :=
      { lg := s.layouts.lg ++ [newLayoutItem]
        md := s.layouts.md ++ [newLayoutItem]
        sm := s.layouts.sm ++ [newLayoutItem] } }

/-- Vanilla `workspaceStore.ts.removeWidget`: filter the id out of the widget
list and every breakpoint array, and clear `activeWidgetId` iff it was the
removed id; `currentTicker` is untouched by the partial `setState`. -/
def removeWidget (s : WorkspaceState) (widgetId : String) : WorkspaceState :=
  { widgets := s.widgets.filter fun w => w.id != widgetId
    layouts :=
      { lg := s.layouts.lg.filter fun l => l.i != widgetId
        md := s.layouts.md.filter fun l => l.i != widgetId
        sm := s.layouts.sm.filter fun l => l.i != widgetId }
    currentTicker := s.currentTicker
    activeWidgetId :=
      if s.activeWidgetId = some widgetId then none else s.activeWidgetId }

/-- Breakpoint names (`lg`/`md`/`sm`). -/
inductive Bp where
  | lg
  | md
  | sm
deriving DecidableEq, Repr

/-- Select one breakpoint's array (`this.layouts[this.currentBreakpoint]`). -/
def getBp (L : WorkspaceLayouts) : Bp → List LayoutItem
  | .lg => L.lg
  | .md => L.md
  | .sm => L.sm

/-- The clamped drag candidate of `part_010.moveWidgetToPosition`:
`newX = max(0, min(max(0, GRID_COLS - w), x))`, `newY = max(0, y)`, size
unchanged. -/
def dragCandidate (wl : LayoutItem) (x y : Int) : LayoutItem :=
  { wl with x := max 0 (min (max 0 (GRID_COLS - wl.w)) x), y := max 0 y }

/-- In-place write `widgetLayout.x = newX; widgetLayout.y = newY` on the item
with the given id (the unique such item in reachable states). -/
def setItemPos (layout : List LayoutItem) (widgetId : String) (nx ny : Int) :
    List LayoutItem :=
  layout.map fun l => if l.i == widgetId then { l with x := nx, y := ny } else l

/-- Drag commit, `part_010.moveWidgetToPosition`: find the dragged item in the
current breakpoint's array, clamp the requested position into the grid,
return unchanged on collision, otherwise mutate the found item in place and
write the array back.  Because the three breakpoint arrays share the item
object (see the module comment), the in-place write is visible in all three
lists. -/
def moveWidgetToPosition (s : WorkspaceState) (bp : Bp) (widgetId : String)
    (x y : Int) : WorkspaceState :=
  match (getBp s.layouts bp).find? (fun l => l.i == widgetId) with
  | none => s
  | some widgetLayout =>
    let tempItem := dragCandidate widgetLayout x y
    if hasCollision (getBp s.layouts bp) tempItem widgetId then s
    else
      { s with
        layouts :=
          { lg := setItemPos s.layouts.lg widgetId tempItem.x tempItem.y
            md := setItemPos s.layouts.md widgetId tempItem.x tempItem.y
            sm := setItemPos s.layouts.sm widgetId tempItem.x tempItem.y } }

/-- The clamped resize candidate of `part_010.resizeWidget`:
`newW = max(2, min(max(2, GRID_COLS - x), w))`, `newH = max(2, h)`, position
unchanged.  The lower clamp is the constant 2, not the item's `minW`/`minH`. -/
def resizeCandidate (wl : LayoutItem) (w h : Int) : LayoutItem :=
  { wl with w := max 2 (min (max 2 (GRID_COLS - wl.x)) w), h := max 2 h }

/-- In-place write `widgetLayout.w = newW; widgetLayout.h = newH`. -/
def setItemSize (layout : List LayoutItem) (widgetId : String) (nw nh : Int) :
    List LayoutItem :=
  layout.map fun l => if l.i == widgetId then { l with w := nw, h := nh } else l

/-- Resize commit, `part_010.resizeWidget`: mirror image of
`moveWidgetToPosition` acting on `w`/`h`. -/
def resizeWidget (s : WorkspaceState) (bp : Bp) (widgetId : String)
    (w h : Int) : WorkspaceState :=
  match (getBp s.layouts bp).find? (fun l => l.i == widgetId) with
  | none => s
  | some widgetLayout =>
    let tempItem := resizeCandidate widgetLayout w h
    if hasCollision (getBp s.layouts bp) tempItem widgetId then s
    else
      { s with
        layouts :=
          { lg := setItemSize s.layouts.lg widgetId tempItem.w tempItem.h
            md := setItemSize s.layouts.md widgetId tempItem.w tempItem.h
            sm := setItemSize s.layouts.sm widgetId tempItem.w tempItem.h } }

/-- Row height in pixels, `ROW_HEIGHT = 40` in `part_010`. -/
def ROW_HEIGHT : ℚ := 40

/-- Gutter in pixels, `MARGIN = 6` in `part_010`. -/
def MARGIN : ℚ := 6

/-- Container geometry read from the DOM in `part_010`
(`getBoundingClientRect` and the computed padding styles). -/
structure ContainerGeom where
  left : ℚ
  top : ℚ
  width : ℚ
  paddingLeft : ℚ
  paddingTop : ℚ
  paddingRight : ℚ
deriving DecidableEq, Repr

/-- JavaScript `Math.floor` on an exactly-represented double. -/
def jsFloor (q : ℚ) : Int := q.floor

/-- JavaScript `Math.round` (round half away from zero upward:
`Math.round(q) = ⌊q + 1/2⌋`). -/
def jsRound (q : ℚ) : Int := (q + 1 / 2).floor

/-- Pointer-to-grid mapping of `part_010.calculateGridPosition` (the
non-null-container path): subtract origin and padding, divide by
column width plus gutter, floor, and clamp `x` into `[0, GRID_COLS - 1]`
and `y` into `[0, ∞)`. -/
def calculateGridPosition (geom : ContainerGeom) (clientX clientY : ℚ) :
    Int × Int :=
  let relativeX := clientX - geom.left - geom.paddingLeft
  let relativeY := clientY - geom.top - geom.paddingTop
  let availableWidth := geom.width - geom.paddingLeft - geom.paddingRight
  let totalMarginWidth := MARGIN * ((GRID_COLS : ℚ) - 1)
  let columnWidth := (availableWidth - totalMarginWidth) / (GRID_COLS : ℚ)
  let x := max 0 (min (GRID_COLS - 1) (jsFloor (relativeX / (columnWidth + MARGIN))))
  let y := max 0 (jsFloor (relativeY / (ROW_HEIGHT + MARGIN)))
  (x, y)

/-- The placeholder element of `part_010`: its grid geometry (written by
`applyGridLayout` as `span` styles and parsed back by `handleResizeEnd`)
and whether its `display` style is `'block'` (`visible = true`) or
`'none'`. -/
structure Placeholder where
  x : Int
  y : Int
  w : Int
  h : Int
  visible : Bool
deriving DecidableEq, Repr

/-- Component state of the `GridLayout` class in `part_010`.  `store` is the
workspace store the component reads through its subscription (the
component's `this.layouts` is the same object as the store's, see the
module comment). -/
structure GridComp where
  store : WorkspaceState
  currentBreakpoint : Bp
  draggedWidgetId : Option String
  resizingWidgetId : Option String
  resizeStartPos : ℚ × ℚ
  resizeStartSize : Int × Int
  placeholder : Option Placeholder
deriving DecidableEq, Repr

/-- `part_010.showPlaceholder`: create the element if needed, position it and
set `display = 'block'`. -/
def showPlaceholder (g : GridComp) (x y w h : Int) : GridComp :=
  { g with placeholder := some { x := x, y := y, w := w, h := h, visible := true } }

/-- `part_010.hidePlaceholder`: set `display = 'none'` when the element
exists. -/
def hidePlaceholder (g : GridComp) : GridComp :=
  { g with placeholder := g.placeholder.map fun p => { p with visible := false } }

/-- `part_010.handleDragOver`: if a drag is in flight, derive the grid
position from the pointer and move the placeholder to it with the dragged
item's size.  No store write occurs. -/
def handleDragOver (g : GridComp) (geom : ContainerGeom) (clientX clientY : ℚ) :
    GridComp :=
  match g.draggedWidgetId with
  | none => g
  | some draggedId =>
    let gridPos := calculateGridPosition geom clientX clientY
    match (getBp g.store.layouts g.currentBreakpoint).find?
        (fun l => l.i == draggedId) with
    | none => g
    | some draggedLayout =>
      showPlaceholder g gridPos.1 gridPos.2 draggedLayout.w draggedLayout.h

/-- `part_010.handleDrop` (non-null drag id path): hide the placeholder,
derive the grid position from the drop coordinates and commit through
`moveWidgetToPosition`. -/
def handleDrop (g : GridComp) (geom : ContainerGeom) (clientX clientY : ℚ) :
    GridComp :=
  let g1 := hidePlaceholder g
  match g1.draggedWidgetId with
  | none => g1
  | some draggedId =>
    let gridPos := calculateGridPosition geom clientX clientY
    { g1 with
      store := moveWidgetToPosition g1.store g1.currentBreakpoint draggedId
        gridPos.1 gridPos.2 }

/-- `part_010.handleResizeStart`: record the resizing id, the starting
pointer position and — when the item is found — its starting size. -/
def handleResizeStart (g : GridComp) (widgetId : String) (clientX clientY : ℚ) :
    GridComp :=
  let g1 := { g with resizingWidgetId := some widgetId
                     resizeStartPos := (clientX, clientY) }
  match (getBp g.store.layouts g.currentBreakpoint).find?
      (fun l => l.i == widgetId) with
  | none => g1
  | some widgetLayout =>
    { g1 with resizeStartSize := (widgetLayout.w, widgetLayout.h) }

/-- `part_010.handleResizeMove`: derive the size delta in grid units from the
pixel delta, clamp `newW` into `[2, GRID_COLS]` and `newH` into `[2, ∞)`,
and preview it by moving the placeholder onto the resized item.  No store
write occurs. -/
def handleResizeMove (g : GridComp) (geom : ContainerGeom) (clientX clientY : ℚ) :
    GridComp :=
  match g.resizingWidgetId with
  | none => g
  | some widgetId =>
    let deltaX := clientX - g.resizeStartPos.1
    let deltaY := clientY - g.resizeStartPos.2
    let availableWidth := geom.width - geom.paddingLeft - geom.paddingRight
    let totalMarginWidth := MARGIN * ((GRID_COLS : ℚ) - 1)
    let columnWidth := (availableWidth - totalMarginWidth) / (GRID_COLS : ℚ)
    let deltaW := jsRound (deltaX / (columnWidth + MARGIN))
    let deltaH := jsRound (deltaY / (ROW_HEIGHT + MARGIN))
    let newW := max 2 (min GRID_COLS (g.resizeStartSize.1 + deltaW))
    let newH := max 2 (g.resizeStartSize.2 + deltaH)
    match (getBp g.store.layouts g.currentBreakpoint).find?
        (fun l => l.i == widgetId) with
    | none => g
    | some widgetLayout =>
      showPlaceholder g widgetLayout.x widgetLayout.y newW newH

/-- `part_010.handleResizeEnd`: hide the placeholder, then — only if the
placeholder's `display` is still not `'none'` — parse its spans back and
commit through `resizeWidget`; finally clear the resizing id.  Note the
order in the source: `this.hidePlaceholder()` runs *before* the test
`this.placeholder.style.display !== 'none'`. -/
def handleResizeEnd (g : GridComp) : GridComp :=
  match g.resizingWidgetId with
  | none => g
  | some widgetId =>
    let g1 := hidePlaceholder g
    let g2 :=
      match g1.placeholder with
      | some p =>
        if p.visible && decide (0 < p.w) && decide (0 < p.h) then
          { g1 with
            store := resizeWidget g1.store g1.currentBreakpoint widgetId p.w p.h }
        else g1
      | none => g1
    { g2 with resizingWidgetId := none }

/-- JavaScript double restricted to the values the NaN-propagation analysis
needs: `nan`, or a finite exactly-represented value.  (Infinities do not
arise in the modelled scenarios.) -/
inductive JNum where
  | nan : JNum
  | num : ℚ → JNum
deriving DecidableEq, Repr

namespace JNum

/-- Addition: NaN-propagating. -/
def add : JNum → JNum → JNum
  | num a, num b => num (a + b)
  | _, _ => nan

/-- Subtraction: NaN-propagating. -/
def sub : JNum → JNum → JNum
  | num a, num b => num (a - b)
  | _, _ => nan

/-- Division: NaN-propagating.  (A zero divisor would give `±Infinity` in
JavaScript; no modelled scenario divides by zero.) -/
def div : JNum → JNum → JNum
  | num a, num b => if b = 0 then nan else num (a / b)
  | _, _ => nan

/-- `Math.floor`, where `Math.floor(NaN) = NaN`. -/
def floorJ : JNum → JNum
  | num a => num (a.floor : ℚ)
  | nan => nan

/-- `Math.max`, which returns NaN if any argument is NaN. -/
def maxJ : JNum → JNum → JNum
  | num a, num b => num (max a b)
  | _, _ => nan

/-- `Math.min`, which returns NaN if any argument is NaN. -/
def minJ : JNum → JNum → JNum
  | num a, num b => num (min a b)
  | _, _ => nan

/-- JavaScript `<`, which is false whenever an operand is NaN. -/
def ltJ : JNum → JNum → Bool
  | num a, num b => decide (a < b)
  | _, _ => false

end JNum

/-- Layout item with JavaScript-double coordinates, for the NaN-propagation
analysis of the drop path. -/
structure LayoutItemJ where
  i : String
  x : JNum
  y : JNum
  w : JNum
  h : JNum
  minW : JNum
  minH : JNum
deriving DecidableEq, Repr

/-- `part_010.hasCollision`'s overlap test over JavaScript doubles. -/
def overlapsJ (a b : LayoutItemJ) : Bool :=
  (JNum.ltJ a.x (JNum.add b.x b.w) && JNum.ltJ b.x (JNum.add a.x a.w)) &&
  (JNum.ltJ a.y (JNum.add b.y b.h) && JNum.ltJ b.y (JNum.add a.y a.h))

/-- `part_010.hasCollision` over JavaScript doubles. -/
def hasCollisionJ (layout : List LayoutItemJ) (item : LayoutItemJ)
    (excludeId : String) : Bool :=
  layout.any fun l => if l.i == excludeId then false else overlapsJ item l

/-- `part_010.calculateGridPosition` over JavaScript doubles (the container
geometry itself is finite; only the pointer coordinates may be NaN). -/
def calculateGridPositionJ (geom : ContainerGeom) (clientX clientY : JNum) :
    JNum × JNum :=
  let relativeX := JNum.sub (JNum.sub clientX (JNum.num geom.left)) (JNum.num geom.paddingLeft)
  let relativeY := JNum.sub (JNum.sub clientY (JNum.num geom.top)) (JNum.num geom.paddingTop)
  let availableWidth := geom.width - geom.paddingLeft - geom.paddingRight
  let totalMarginWidth := MARGIN * ((GRID_COLS : ℚ) - 1)
  let columnWidth := JNum.num ((availableWidth - totalMarginWidth) / (GRID_COLS : ℚ))
  let x := JNum.maxJ (JNum.num 0)
    (JNum.minJ (JNum.num ((GRID_COLS : ℚ) - 1))
      (JNum.floorJ (JNum.div relativeX (JNum.add columnWidth (JNum.num MARGIN)))))
  let y := JNum.maxJ (JNum.num 0)
    (JNum.floorJ (JNum.div relativeY (JNum.num (ROW_HEIGHT + MARGIN))))
  (x, y)

/-- `part_010.moveWidgetToPosition` over JavaScript doubles, on the current
breakpoint's array (the argument list). -/
def moveWidgetToPositionJ (layout : List LayoutItemJ) (widgetId : String)
    (x y : JNum) : List LayoutItemJ :=
  match layout.find? (fun l => l.i == widgetId) with
  | none => layout
  | some widgetLayout =>
    let newX := JNum.maxJ (JNum.num 0)
      (JNum.minJ (JNum.maxJ (JNum.num 0) (JNum.sub (JNum.num (GRID_COLS : ℚ)) widgetLayout.w)) x)
    let newY := JNum.maxJ (JNum.num 0) y
    let tempItem := { widgetLayout with x := newX, y := newY }
    if hasCollisionJ layout tempItem widgetId then layout
    else layout.map fun l => if l.i == widgetId then { l with x := newX, y := newY } else l

/-- `part_010.handleDrop` over JavaScript doubles: grid position from the
drop coordinates, then the move commit. -/
def handleDropJ (layout : List LayoutItemJ) (geom : ContainerGeom)
    (draggedId : Option String) (clientX clientY : JNum) : List LayoutItemJ :=
  match draggedId with
  | none => layout
  | some widgetId =>
    let gridPos := calculateGridPositionJ geom clientX clientY
    moveWidgetToPositionJ layout widgetId gridPos.1 gridPos.2

/-! ### Invariants and reachable store states -/

/-- Ids are unique within one breakpoint's array (data-model invariant 4 of
the spec; maintained by the freshness of generated ids). -/
def UniqueIds (L : List LayoutItem) : Prop := (L.map LayoutItem.i).Nodup

/-- No two distinct items of the layout overlap. -/
def NoOverlap (L : List LayoutItem) : Prop :=
  L.Pairwise fun a b => overlaps a b = false

instance (L : List LayoutItem) : Decidable (NoOverlap L) := by
  unfold NoOverlap; infer_instance

/-- Geometric per-item invariant that the code actually maintains:
`0 ≤ x`, `x + w ≤ GRID_COLS`, and both sizes at least the constant 2 used by
`resizeWidget`'s clamp. -/
def ItemBounds (l : LayoutItem) : Prop :=
  0 ≤ l.x ∧ l.x + l.w ≤ GRID_COLS ∧ 2 ≤ l.w ∧ 2 ≤ l.h

instance (l : LayoutItem) : Decidable (ItemBounds l) := by
  unfold ItemBounds; infer_instance

/-- Well-formedness of one breakpoint array. -/
def GoodLayout (L : List LayoutItem) : Prop :=
  UniqueIds L ∧ NoOverlap L ∧ ∀ l ∈ L, ItemBounds l

/-- Store invariant: the three breakpoint arrays are identical (they share
their item objects, see the module comment) and well-formed. -/
def StoreInv (s : WorkspaceState) : Prop :=
  s.layouts.md = s.layouts.lg ∧ s.layouts.sm = s.layouts.lg ∧
    GoodLayout s.layouts.lg

/-- States reachable from the initial workspace by committed mutations:
widget registration (`addWidget`, with a fresh `Date.now()`-based id), drag
commit (`moveWidgetToPosition`), resize commit (`resizeWidget`) and widget
removal (`removeWidget`). -/
inductive Reach : WorkspaceState → Prop where
  | empty : Reach initialState
  | add {s : WorkspaceState} (t : WidgetType) (ticker : Option String)
      (newId : String) (hs : Reach s)
      (hfresh : ∀ l ∈ s.layouts.lg, l.i ≠ newId) :
      Reach (addWidget s t ticker newId)
  | move {s : WorkspaceState} (bp : Bp) (widgetId : String) (x y : Int)
      (hs : Reach s) : Reach (moveWidgetToPosition s bp widgetId x y)
  | resize {s : WorkspaceState} (bp : Bp) (widgetId : String) (w h : Int)
      (hs : Reach s) : Reach (resizeWidget s bp widgetId w h)
  | remove {s : WorkspaceState} (widgetId : String) (hs : Reach s) :
      Reach (removeWidget s widgetId)

/-! ### Basic lemmas about the collision predicate -/

theorem overlaps_iff (a b : LayoutItem) :
    overlaps a b = true ↔
      ((a.x < b.x + b.w ∧ b.x < a.x + a.w) ∧
       (a.y < b.y + b.h ∧ b.y < a.y + a.h)) := by
  simp [overlaps, Bool.and_eq_true, decide_eq_true_eq]

theorem overlaps_eq_false_iff (a b : LayoutItem) :
    overlaps a b = false ↔
      ¬((a.x < b.x + b.w ∧ b.x < a.x + a.w) ∧
        (a.y < b.y + b.h ∧ b.y < a.y + a.h)) := by
  rw [← overlaps_iff]
  cases overlaps a b <;> simp

theorem hasCollision_eq_false_iff (L : List LayoutItem) (item : LayoutItem)
    (excludeId : String) :
    hasCollision L item excludeId = false ↔
      ∀ l ∈ L, l.i ≠ excludeId → overlaps item l = false := by
  simp only [hasCollision, List.any_eq_false]
  constructor
  · intro H l hl hne
    have := H l hl
    simpa [hne] using this
  · intro H l hl
    by_cases he : l.i = excludeId
    · simp [he]
    · simpa [he] using H l hl he

/-! ### Lemmas about `maxY` -/

theorem foldl_max_le_init (ls : List LayoutItem) (init : Int) :
    init ≤ ls.foldl (fun acc m => max acc (m.y + m.h)) init := by
  induction ls generalizing init with
  | nil => simp
  | cons a t ih =>
    exact le_trans (le_max_left _ _) (ih (max init (a.y + a.h)))

theorem mem_le_foldl_max (ls : List LayoutItem) :
    ∀ (init : Int) (m : LayoutItem), m ∈ ls →
      m.y + m.h ≤ ls.foldl (fun acc mm => max acc (mm.y + mm.h)) init := by
  induction ls with
  | nil => intro init m hm; cases hm
  | cons a t ih =>
    intro init m hm
    rcases List.mem_cons.mp hm with h | h
    · subst h
      exact le_trans (le_max_right _ _) (foldl_max_le_init t _)
    · exact ih _ m h

theorem le_maxY {L : List LayoutItem} {m : LayoutItem} (hm : m ∈ L) :
    m.y + m.h ≤ maxY L := by
  cases L with
  | nil => cases hm
  | cons a t =>
    rcases List.mem_cons.mp hm with h | h
    · subst h
      exact foldl_max_le_init t _
    · exact mem_le_foldl_max t _ m h

theorem overlaps_comm_eq_false {a b : LayoutItem} (h : overlaps a b = false) :
    overlaps b a = false := by
  rw [overlaps_eq_false_iff] at h ⊢
  tauto

theorem findAvailablePosition_fst (L : List LayoutItem) :
    (findAvailablePosition L).1 = 0 := by
  unfold findAvailablePosition
  split <;> rfl

/-! ### Preservation of the store invariant -/

theorem find?_id_facts {L : List LayoutItem} {wid : String} {wl : LayoutItem}
    (hf : L.find? (fun l => l.i == wid) = some wl) :
    wl ∈ L ∧ wl.i = wid :=
  ⟨List.mem_of_find?_eq_some hf, by simpa using List.find?_some hf⟩

theorem unique_of_uniqueIds {L : List LayoutItem} (hu : UniqueIds L)
    {a b : LayoutItem} (ha : a ∈ L) (hb : b ∈ L) (hi : a.i = b.i) : a = b :=
  List.inj_on_of_nodup_map hu ha hb hi

theorem itemBounds_dragCandidate {wl : LayoutItem} (hb : ItemBounds wl)
    (x y : Int) : ItemBounds (dragCandidate wl x y) := by
  obtain ⟨h1, h2, h3, h4⟩ := hb
  simp only [ItemBounds, dragCandidate, GRID_COLS] at *
  omega

theorem itemBounds_resizeCandidate {wl : LayoutItem} (hb : ItemBounds wl)
    (w h : Int) : ItemBounds (resizeCandidate wl w h) := by
  obtain ⟨h1, h2, h3, h4⟩ := hb
  simp only [ItemBounds, resizeCandidate, GRID_COLS] at *
  omega

theorem overlaps_self_of_bounds {wl : LayoutItem} (hb : ItemBounds wl) :
    overlaps wl wl = true := by
  obtain ⟨h1, h2, h3, h4⟩ := hb
  rw [overlaps_iff]
  omega

/-- Well-formedness is preserved by replacing the (unique) item with a given
id by a candidate that has the same id, satisfies the bounds and passed the
collision check against everything else. -/
theorem goodLayout_update {L : List LayoutItem} {wid : String}
    {wl cand : LayoutItem} (hg : GoodLayout L)
    (hf : L.find? (fun l => l.i == wid) = some wl)
    (hci : cand.i = wl.i) (hcand : ItemBounds cand)
    (hcol : hasCollision L cand wid = false) :
    GoodLayout (L.map fun l => if l.i == wid then cand else l) := by
  obtain ⟨hu, hno, hb⟩ := hg
  obtain ⟨hwl_mem, hwl_id⟩ := find?_id_facts hf
  have hid_pres : ∀ l : LayoutItem,
      (if l.i == wid then cand else l).i = l.i := by
    intro l
    by_cases h : l.i = wid
    · simp [h, hci, hwl_id]
    · simp [h]
  have hcol' := (hasCollision_eq_false_iff L cand wid).mp hcol
  refine ⟨?_, ?_, ?_⟩
  · unfold UniqueIds
    rw [List.map_map]
    have he : (LayoutItem.i ∘ fun l : LayoutItem => if l.i == wid then cand else l)
        = LayoutItem.i := funext hid_pres
    rw [he]
    exact hu
  · unfold NoOverlap
    rw [List.pairwise_map]
    refine hno.imp_of_mem ?_
    intro a b ha hb' hab
    by_cases hA : a.i = wid <;> by_cases hB : b.i = wid
    · -- both equal the unique item: contradiction with `overlaps wl wl = true`
      have haw : a = wl := unique_of_uniqueIds hu ha hwl_mem (hA.trans hwl_id.symm)
      have hbw : b = wl := unique_of_uniqueIds hu hb' hwl_mem (hB.trans hwl_id.symm)
      rw [haw, hbw, overlaps_self_of_bounds (hb wl hwl_mem)] at hab
      cases hab
    · have hcb : overlaps cand b = false := hcol' b hb' (by simp [hB])
      simp [hA, hB, hcb]
    · have hca : overlaps cand a = false := hcol' a ha (by simp [hA])
      simp [hA, hB, overlaps_comm_eq_false hca]
    · simp [hA, hB, hab]
  · intro l' hl'
    obtain ⟨l, hl, hfl⟩ := List.mem_map.mp hl'
    by_cases h : l.i = wid
    · subst hfl
      simpa [h] using hcand
    · subst hfl
      simpa [h] using hb l hl

theorem setItemPos_eq_update {L : List LayoutItem} {wid : String}
    {wl : LayoutItem} (hu : UniqueIds L)
    (hf : L.find? (fun l => l.i == wid) = some wl) (x y : Int) :
    setItemPos L wid (dragCandidate wl x y).x (dragCandidate wl x y).y
      = L.map fun l => if l.i == wid then dragCandidate wl x y else l := by
  obtain ⟨hwl_mem, hwl_id⟩ := find?_id_facts hf
  unfold setItemPos
  refine List.map_congr_left ?_
  intro l hl
  by_cases h : l.i = wid
  · have : l = wl := unique_of_uniqueIds hu hl hwl_mem (h.trans hwl_id.symm)
    subst this
    simp [h, dragCandidate]
  · simp [h]

theorem setItemSize_eq_update {L : List LayoutItem} {wid : String}
    {wl : LayoutItem} (hu : UniqueIds L)
    (hf : L.find? (fun l => l.i == wid) = some wl) (w h : Int) :
    setItemSize L wid (resizeCandidate wl w h).w (resizeCandidate wl w h).h
      = L.map fun l => if l.i == wid then resizeCandidate wl w h else l := by
  obtain ⟨hwl_mem, hwl_id⟩ := find?_id_facts hf
  unfold setItemSize
  refine List.map_congr_left ?_
  intro l hl
  by_cases hh : l.i = wid
  · have : l = wl := unique_of_uniqueIds hu hl hwl_mem (hh.trans hwl_id.symm)
    subst this
    simp [hh, resizeCandidate]
  · simp [hh]

theorem getBp_eq_lg {s : WorkspaceState} (hmd : s.layouts.md = s.layouts.lg)
    (hsm : s.layouts.sm = s.layouts.lg) (bp : Bp) :
    getBp s.layouts bp = s.layouts.lg := by
  cases bp <;> simp [getBp, hmd, hsm]

theorem storeInv_addWidget {s : WorkspaceState} (hs : StoreInv s)
    (t : WidgetType) (ticker : Option String) (newId : String)
    (hfresh : ∀ l ∈ s.layouts.lg, l.i ≠ newId) :
    StoreInv (addWidget s t ticker newId) := by
  obtain ⟨hmd, hsm, hu, hno, hb⟩ := hs
  refine ⟨by simp [addWidget, hmd], by simp [addWidget, hsm], ?_, ?_, ?_⟩
  · unfold UniqueIds at hu ⊢
    simp only [addWidget, List.map_append, List.map_cons, List.map_nil]
    rw [List.nodup_append]
    refine ⟨hu, by simp, ?_⟩
    intro a ha hb'
    simp only [List.mem_singleton] at hb'
    obtain ⟨l, hl, hli⟩ := List.mem_map.mp ha
    exact hfresh l hl (by rw [hli, hb'])
  · unfold NoOverlap at hno ⊢
    simp only [addWidget]
    rw [List.pairwise_append]
    refine ⟨hno, by simp, ?_⟩
    intro a ha n hn
    simp only [List.mem_singleton] at hn
    subst hn
    rw [overlaps_eq_false_iff]
    rintro ⟨-, -, hv2⟩
    -- the new item sits at `y = maxY`, below every existing bottom edge
    have hL : ¬ s.layouts.lg.isEmpty := by
      cases hlg : s.layouts.lg with
      | nil => rw [hlg] at ha; cases ha
      | cons c cs => simp [hlg]
    have hy : (findAvailablePosition s.layouts.lg).2 = maxY s.layouts.lg := by
      unfold findAvailablePosition
      rw [if_neg hL]
    rw [hy] at hv2
    exact absurd hv2 (not_lt.mpr (le_maxY ha))
  · intro l hl
    simp only [addWidget, List.mem_append, List.mem_singleton] at hl
    rcases hl with h | h
    · exact hb l h
    · subst h
      constructor
      · rw [findAvailablePosition_fst]
      rw [findAvailablePosition_fst]
      cases t <;> simp [DEFAULT_WIDGET_SIZES, GRID_COLS]

theorem storeInv_move {s : WorkspaceState} (hs : StoreInv s) (bp : Bp)
    (widgetId : String) (x y : Int) :
    StoreInv (moveWidgetToPosition s bp widgetId x y) := by
  obtain ⟨hmd, hsm, hg⟩ := hs
  have hbp := getBp_eq_lg hmd hsm bp
  unfold moveWidgetToPosition
  rw [hbp]
  cases hfind : s.layouts.lg.find? (fun l => l.i == widgetId) with
  | none => exact ⟨hmd, hsm, hg⟩
  | some wl =>
    by_cases hc : hasCollision s.layouts.lg (dragCandidate wl x y) widgetId = true
    · simp only [hc, if_true]
      exact ⟨hmd, hsm, hg⟩
    · have hc' : hasCollision s.layouts.lg (dragCandidate wl x y) widgetId = false :=
        Bool.eq_false_iff.mpr (by simpa using hc)
      simp only [hc', Bool.false_eq_true, if_false]
      have hwl_bounds : ItemBounds wl :=
        hg.2.2 wl (List.mem_of_find?_eq_some hfind)
      have hupd := setItemPos_eq_update hg.1 hfind x y
      refine ⟨?_, ?_, ?_⟩
      · simp only [hmd]
      · simp only [hsm]
      · simp only
        rw [hupd]
        exact goodLayout_update hg hfind rfl
          (itemBounds_dragCandidate hwl_bounds x y) hc'

theorem storeInv_resize {s : WorkspaceState} (hs : StoreInv s) (bp : Bp)
    (widgetId : String) (w h : Int) :
    StoreInv (resizeWidget s bp widgetId w h) := by
  obtain ⟨hmd, hsm, hg⟩ := hs
  have hbp := getBp_eq_lg hmd hsm bp
  unfold resizeWidget
  rw [hbp]
  cases hfind : s.layouts.lg.find? (fun l => l.i == widgetId) with
  | none => exact ⟨hmd, hsm, hg⟩
  | some wl =>
    by_cases hc : hasCollision s.layouts.lg (resizeCandidate wl w h) widgetId = true
    · simp only [hc, if_true]
      exact ⟨hmd, hsm, hg⟩
    · have hc' : hasCollision s.layouts.lg (resizeCandidate wl w h) widgetId = false :=
        Bool.eq_false_iff.mpr (by simpa using hc)
      simp only [hc', Bool.false_eq_true, if_false]
      have hwl_bounds : ItemBounds wl :=
        hg.2.2 wl (List.mem_of_find?_eq_some hfind)
      have hupd := setItemSize_eq_update hg.1 hfind w h
      refine ⟨?_, ?_, ?_⟩
      · simp only [hmd]
      · simp only [hsm]
      · simp only
        rw [hupd]
        exact goodLayout_update hg hfind rfl
          (itemBounds_resizeCandidate hwl_bounds w h) hc'

theorem goodLayout_filter {L : List LayoutItem} (hg : GoodLayout L)
    (p : LayoutItem → Bool) : GoodLayout (L.filter p) := by
  obtain ⟨hu, hno, hb⟩ := hg
  refine ⟨?_, ?_, ?_⟩
  · exact List.Nodup.sublist ((List.filter_sublist L).map LayoutItem.i) hu
  · exact hno.sublist (List.filter_sublist L)
  · intro l hl
    exact hb l (List.mem_of_mem_filter hl)

theorem storeInv_remove {s : WorkspaceState} (hs : StoreInv s)
    (widgetId : String) : StoreInv (removeWidget s widgetId) := by
  obtain ⟨hmd, hsm, hg⟩ := hs
  exact ⟨by simp [removeWidget, hmd], by simp [removeWidget, hsm],
    goodLayout_filter hg _⟩

/-- Every reachable store state satisfies the invariant. -/
theorem reach_storeInv {s : WorkspaceState} (hs : Reach s) : StoreInv s := by
  induction hs with
  | empty =>
    exact ⟨rfl, rfl, by simp [initialState, UniqueIds], by simp [initialState, NoOverlap],
      by simp [initialState]⟩
  | add t ticker newId hs hfresh ih => exact storeInv_addWidget ih t ticker newId hfresh
  | move bp widgetId x y hs ih => exact storeInv_move ih bp widgetId x y
  | resize bp widgetId w h hs ih => exact storeInv_resize ih bp widgetId w h
  | remove widgetId hs ih => exact storeInv_remove ih widgetId

/-! ### Claim theorems -/

/-- C1 (confirmed): starting from the empty workspace, after every committed
mutation (widget registration via `addWidget`, drag commit via
`moveWidgetToPosition`, resize commit via `resizeWidget` — and widget
removal, which only strengthens the statement), for every breakpoint and
every pair of distinct items in that breakpoint's layout, the rectangles do
not overlap (simultaneous `[x, x+w)` and `[y, y+h)` interval overlap). -/
theorem C1_no_overlap_invariant {s : WorkspaceState} (hs : Reach s) (bp : Bp) :
    NoOverlap (getBp s.layouts bp) := by
  obtain ⟨hmd, hsm, hg⟩ := reach_storeInv hs
  rw [getBp_eq_lg hmd hsm bp]
  exact hg.2.1

/-- Witness for C1: a concrete reachable state (register an order book and a
watchlist, then drag the order book to `(4, 0)`) whose `md` layout is
non-overlapping. -/
theorem C1_no_overlap_invariant_witness :
    NoOverlap (getBp (moveWidgetToPosition
      (addWidget (addWidget initialState .orderbook none "a") .watchlist none "b")
      .lg "a" 4 0).layouts .md) :=
  C1_no_overlap_invariant
    (Reach.move .lg "a" 4 0
      (Reach.add .watchlist none "b"
        (Reach.add .orderbook none "a" Reach.empty (by decide)) (by decide)))
    .md

/-- C5 counterexample: the claim "a committed resize never sets an item's
width below its own `minW`" fails.  A chart widget has `minW = 3`, but
`resizeWidget` clamps only to the constant 2: resizing the freshly added
chart to width 2 commits `w = 2 < minW = 3` on a reachable state. -/
theorem C5_counterexample :
    Reach (resizeWidget (addWidget initialState .chart none "c") .lg "c" 2 4)
    ∧ ((resizeWidget (addWidget initialState .chart none "c") .lg "c" 2 4).layouts.lg.find?
        (fun l => l.i == "c")).map (fun l => (l.w, l.minW)) = some (2, 3)
    ∧ ((resizeWidget (addWidget initialState .chart none "c") .lg "c" 2 4).layouts.lg.find?
        (fun l => l.i == "c")).map (fun l => decide (l.minW ≤ l.w)) = some false :=
  ⟨Reach.resize .lg "c" 2 4 (Reach.add .chart none "c" Reach.empty (by decide)),
   by decide, by decide⟩

/-- C5 amended (proved): after every committed mutation, every item of every
breakpoint satisfies `0 ≤ x`, `x + w ≤ GRID_COLS`, `w ≥ 2` and `h ≥ 2` —
the constant lower clamp 2 of `resizeWidget`/`handleResizeMove`, not the
item's own `minW`/`minH` (and `maxW`/`maxH` are never set). -/
theorem C5_bounds_invariant_amended {s : WorkspaceState} (hs : Reach s)
    (bp : Bp) : ∀ l ∈ getBp s.layouts bp, ItemBounds l := by
  obtain ⟨hmd, hsm, hg⟩ := reach_storeInv hs
  rw [getBp_eq_lg hmd hsm bp]
  exact hg.2.2

/-- Witness for the amended C5: the committed item of the counterexample
state satisfies the amended bounds. -/
theorem C5_bounds_invariant_amended_witness :
    ItemBounds { i := "c", x := 0, y := 0, w := 2, h := 4, minW := 3, minH := 3 } :=
  C5_bounds_invariant_amended
    (Reach.resize .lg "c" 2 4 (Reach.add .chart none "c" Reach.empty (by decide)))
    .lg _ (by decide)

/-- C7 counterexample: on Scenario A's input, the vanilla store's placement
function `findAvailablePosition` returns `(0, 5)` (bottom-left, below the
single item), not the claimed `(3, 0)`. -/
theorem C7_counterexample :
    findAvailablePosition
        [{ i := "A", x := 0, y := 0, w := 3, h := 5, minW := 2, minH := 3 }]
      = (0, 5)
    ∧ ((0, 5) : Int × Int) ≠ (3, 0) :=
  ⟨by decide, by decide⟩

/-- C7 amended (proved): on Scenario A's input (`{A, x:0, y:0, w:3, h:5}`,
`newWidth = 3`, 12 columns), `findNextPosition` of `part_007` returns
`(3, 0)` as claimed, while `findAvailablePosition` of `workspaceStore.ts`
ignores the width and returns the bottom-left `(0, 5)`. -/
theorem C7_scenarioA_amended :
    findNextPosition
        [{ i := "A", x := 0, y := 0, w := 3, h := 5, minW := 2, minH := 3 }] 3
      = (3, 0)
    ∧ findAvailablePosition
        [{ i := "A", x := 0, y := 0, w := 3, h := 5, minW := 2, minH := 3 }]
      = (0, 5) :=
  ⟨by decide, by decide⟩

/-- C9 (confirmed): registering a widget with a fresh id and immediately
unregistering that id restores the widget list and all three breakpoint
layouts exactly (hence also as sets). -/
theorem C9_register_unregister_roundtrip (s : WorkspaceState) (t : WidgetType)
    (ticker : Option String) (newId : String)
    (hw : ∀ w ∈ s.widgets, w.id ≠ newId)
    (hlg : ∀ l ∈ s.layouts.lg, l.i ≠ newId)
    (hmd : ∀ l ∈ s.layouts.md, l.i ≠ newId)
    (hsm : ∀ l ∈ s.layouts.sm, l.i ≠ newId) :
    (removeWidget (addWidget s t ticker newId) newId).widgets = s.widgets
    ∧ (removeWidget (addWidget s t ticker newId) newId).layouts = s.layouts := by
  have hW : s.widgets.filter (fun w => w.id != newId) = s.widgets :=
    List.filter_eq_self.mpr fun w hwmem => by
      simpa [bne_iff_ne] using hw w hwmem
  have hLg : s.layouts.lg.filter (fun l => l.i != newId) = s.layouts.lg :=
    List.filter_eq_self.mpr fun l hl => by
      simpa [bne_iff_ne] using hlg l hl
  have hMd : s.layouts.md.filter (fun l => l.i != newId) = s.layouts.md :=
    List.filter_eq_self.mpr fun l hl => by
      simpa [bne_iff_ne] using hmd l hl
  have hSm : s.layouts.sm.filter (fun l => l.i != newId) = s.layouts.sm :=
    List.filter_eq_self.mpr fun l hl => by
      simpa [bne_iff_ne] using hsm l hl
  refine ⟨?_, ?_⟩
  · simp [addWidget, removeWidget, List.filter_append, hW]
  · simp [addWidget, removeWidget, List.filter_append, hLg, hMd, hSm]

/-- Witness for C9: the round trip on a workspace already holding an order
book restores the state's widget list and layouts. -/
theorem C9_register_unregister_roundtrip_witness :
    (removeWidget (addWidget (addWidget initialState .orderbook none "a")
        .quote none "r") "r").widgets
      = (addWidget initialState .orderbook none "a").widgets
    ∧ (removeWidget (addWidget (addWidget initialState .orderbook none "a")
        .quote none "r") "r").layouts
      = (addWidget initialState .orderbook none "a").layouts :=
  C9_register_unregister_roundtrip _ .quote none "r"
    (by decide) (by decide) (by decide) (by decide)

/-- C10 (confirmed): `removeWidget` clears `activeWidgetId` exactly when it
equals the removed id, leaves `currentTicker` untouched, keeps exactly the
widgets and layout entries whose id differs, and — when the id is absent —
changes nothing in widgets or layouts. -/
theorem C10_removeWidget_frame (s : WorkspaceState) (widgetId : String) :
    (removeWidget s widgetId).currentTicker = s.currentTicker
    ∧ (removeWidget s widgetId).activeWidgetId
        = (if s.activeWidgetId = some widgetId then none else s.activeWidgetId)
    ∧ (∀ w, w ∈ (removeWidget s widgetId).widgets ↔ w ∈ s.widgets ∧ w.id ≠ widgetId)
    ∧ (∀ bp l, l ∈ getBp (removeWidget s widgetId).layouts bp
        ↔ l ∈ getBp s.layouts bp ∧ l.i ≠ widgetId)
    ∧ ((∀ w ∈ s.widgets, w.id ≠ widgetId) →
       (∀ l ∈ s.layouts.lg, l.i ≠ widgetId) →
       (∀ l ∈ s.layouts.md, l.i ≠ widgetId) →
       (∀ l ∈ s.layouts.sm, l.i ≠ widgetId) →
       (removeWidget s widgetId).widgets = s.widgets
         ∧ (removeWidget s widgetId).layouts = s.layouts) := by
  refine ⟨rfl, rfl, ?_, ?_, ?_⟩
  · intro w
    simp [removeWidget, List.mem_filter, bne_iff_ne]
  · intro bp l
    cases bp <;> simp [removeWidget, getBp, List.mem_filter, bne_iff_ne]
  · intro h1 h2 h3 h4
    have hW : s.widgets.filter (fun w => w.id != widgetId) = s.widgets :=
      List.filter_eq_self.mpr fun w hwmem => by
        simpa [bne_iff_ne] using h1 w hwmem
    have hLg : s.layouts.lg.filter (fun l => l.i != widgetId) = s.layouts.lg :=
      List.filter_eq_self.mpr fun l hl => by
        simpa [bne_iff_ne] using h2 l hl
    have hMd : s.layouts.md.filter (fun l => l.i != widgetId) = s.layouts.md :=
      List.filter_eq_self.mpr fun l hl => by
        simpa [bne_iff_ne] using h3 l hl
    have hSm : s.layouts.sm.filter (fun l => l.i != widgetId) = s.layouts.sm :=
      List.filter_eq_self.mpr fun l hl => by
        simpa [bne_iff_ne] using h4 l hl
    exact ⟨by simp [removeWidget, hW], by simp [removeWidget, hLg, hMd, hSm]⟩

/-- Witness for C10: removing an id that is not present leaves widgets and
layouts of a concrete one-widget workspace unchanged. -/
theorem C10_removeWidget_frame_witness :
    (removeWidget (addWidget initialState .orderbook none "a") "zz").widgets
      = (addWidget initialState .orderbook none "a").widgets
    ∧ (removeWidget (addWidget initialState .orderbook none "a") "zz").layouts
      = (addWidget initialState .orderbook none "a").layouts :=
  (C10_removeWidget_frame (addWidget initialState .orderbook none "a") "zz").2.2.2.2
    (by decide) (by decide) (by decide) (by decide)

/-! ### Placement correctness (C2) -/

theorem findSome?_eq_some_ex {α β : Type} (f : α → Option β) (l : List α)
    (b : β) (h : l.findSome? f = some b) : ∃ a ∈ l, f a = some b := by
  induction l with
  | nil => simp [List.findSome?] at h
  | cons a t ih =>
    cases hfa : f a with
    | some c =>
      rw [List.findSome?_cons, hfa] at h
      exact ⟨a, List.mem_cons_self a t, hfa.trans h⟩
    | none =>
      rw [List.findSome?_cons, hfa] at h
      obtain ⟨x, hx, hfx⟩ := ih h
      exact ⟨x, List.mem_cons_of_mem a hx, hfx⟩

theorem rowScan_spec {L : List LayoutItem} {w y x : Int}
    (h : rowScan L w y = some x) (l : LayoutItem) (hl : l ∈ L)
    (hy1 : l.y ≤ y) (hy2 : y < l.y + l.h) :
    ¬(x < l.x + l.w ∧ l.x < x + w) := by
  unfold rowScan at h
  have hpred := List.find?_some h
  rw [rowFits, Bool.not_eq_true'] at hpred
  have hall := List.any_eq_false.mp hpred
  have hrow : l ∈ itemsInRow L y :=
    List.mem_filter.mpr ⟨hl, by simp [hy1, hy2]⟩
  have hmem : (l.x, l.x + l.w) ∈
      (itemsInRow L y).map fun item => (item.x, item.x + item.w) :=
    List.mem_map_of_mem _ hrow
  have hnot := hall _ hmem
  intro hcon
  apply hnot
  simp only [Bool.and_eq_true, decide_eq_true_eq]
  omega

theorem findAvailablePosition_no_overlap (items : List LayoutItem)
    (w h : Int) (i0 : String) (mW mH : Int) :
    ∀ l ∈ items,
      overlaps { i := i0, x := (findAvailablePosition items).1,
                 y := (findAvailablePosition items).2, w := w, h := h,
                 minW := mW, minH := mH } l = false := by
  intro l hl
  have hne : items.isEmpty = false := by
    cases items with
    | nil => cases hl
    | cons a t => rfl
  rw [overlaps_eq_false_iff]
  rintro ⟨⟨-, -⟩, hv1, -⟩
  have h2 : (findAvailablePosition items).2 = maxY items := by
    unfold findAvailablePosition
    simp [hne]
  rw [h2] at hv1
  exact absurd hv1 (not_lt.mpr (le_maxY hl))

theorem findNextPosition_h1_no_overlap (items : List LayoutItem) (w : Int)
    (i0 : String) (mW mH : Int) :
    ∀ l ∈ items,
      overlaps { i := i0, x := (findNextPosition items w).1,
                 y := (findNextPosition items w).2, w := w, h := 1,
                 minW := mW, minH := mH } l = false := by
  intro l hl
  have hne : items.isEmpty = false := by
    cases items with
    | nil => cases hl
    | cons a t => rfl
  rw [overlaps_eq_false_iff]
  rintro ⟨⟨hh1, hh2⟩, hv1, hv2⟩
  revert hh1 hh2 hv1 hv2
  unfold findNextPosition
  simp only [hne, Bool.false_eq_true, if_false]
  split
  · next p hfs =>
    obtain ⟨yn, hyn, hsome⟩ := findSome?_eq_some_ex _ _ _ hfs
    cases hrs : rowScan items w (yn : Int) with
    | none => rw [hrs] at hsome; simp at hsome
    | some x =>
      rw [hrs] at hsome
      simp only [Option.map_some'] at hsome
      have hp : p = (x, (yn : Int)) := by simpa using hsome.symm
      subst hp
      intro hh1 hh2 hv1 hv2
      exact rowScan_spec hrs l hl (by omega) (by omega) ⟨hh1, hh2⟩
  · intro hh1 hh2 hv1 hv2
    exact absurd hv1 (not_lt.mpr (le_maxY hl))

/-- C2 counterexample: the claimed guarantee fails for `findNextPosition`
with the height that `addWidget` actually inserts.  Input set: one
non-overlapping item `B` filling row 1; `newWidth = 3` is within bounds;
the scan inspects only row 0 and returns `(0, 0)`, but an inserted item of
height 5 at `(0, 0)` overlaps `B`. -/
theorem C2_counterexample :
    NoOverlap [{ i := "B", x := 0, y := 1, w := 12, h := 1, minW := 1, minH := 1 }]
    ∧ (1 : Int) ≤ 3 ∧ (3 : Int) ≤ 12
    ∧ findNextPosition
        [{ i := "B", x := 0, y := 1, w := 12, h := 1, minW := 1, minH := 1 }] 3
      = (0, 0)
    ∧ overlaps
        { i := "N", x := 0, y := 0, w := 3, h := 5, minW := 1, minH := 1 }
        { i := "B", x := 0, y := 1, w := 12, h := 1, minW := 1, minH := 1 } = true :=
  ⟨by decide, by decide, by decide, by decide, by decide⟩

/-- C2 amended (proved): for any non-overlapping input and `1 ≤ newWidth ≤
12`, the position returned by `findAvailablePosition` is overlap-free for an
inserted item of *any* height (it is strictly below every item), and the
position returned by `findNextPosition` is overlap-free for an inserted item
of height 1 (the scan validates exactly one row). -/
theorem C2_placement_amended :
    (∀ (items : List LayoutItem) (w h : Int) (i0 : String) (mW mH : Int),
      NoOverlap items →
      ∀ l ∈ items,
        overlaps { i := i0, x := (findAvailablePosition items).1,
                   y := (findAvailablePosition items).2, w := w, h := h,
                   minW := mW, minH := mH } l = false)
    ∧ (∀ (items : List LayoutItem) (w : Int) (i0 : String) (mW mH : Int),
      NoOverlap items → 1 ≤ w → w ≤ 12 →
      ∀ l ∈ items,
        overlaps { i := i0, x := (findNextPosition items w).1,
                   y := (findNextPosition items w).2, w := w, h := 1,
                   minW := mW, minH := mH } l = false) :=
  ⟨fun items w h i0 mW mH _ => findAvailablePosition_no_overlap items w h i0 mW mH,
   fun items w i0 mW mH _ _ _ => findNextPosition_h1_no_overlap items w i0 mW mH⟩

/-- Witness for the amended C2, on Scenario A's input set. -/
theorem C2_placement_amended_witness :
    overlaps
      { i := "m",
        x := (findAvailablePosition
          [{ i := "A", x := 0, y := 0, w := 3, h := 5, minW := 2, minH := 3 }]).1,
        y := (findAvailablePosition
          [{ i := "A", x := 0, y := 0, w := 3, h := 5, minW := 2, minH := 3 }]).2,
        w := 6, h := 9, minW := 1, minH := 1 }
      { i := "A", x := 0, y := 0, w := 3, h := 5, minW := 2, minH := 3 } = false
    ∧ overlaps
      { i := "n",
        x := (findNextPosition
          [{ i := "A", x := 0, y := 0, w := 3, h := 5, minW := 2, minH := 3 }] 3).1,
        y := (findNextPosition
          [{ i := "A", x := 0, y := 0, w := 3, h := 5, minW := 2, minH := 3 }] 3).2,
        w := 3, h := 1, minW := 1, minH := 1 }
      { i := "A", x := 0, y := 0, w := 3, h := 5, minW := 2, minH := 3 } = false :=
  ⟨C2_placement_amended.1 _ 6 9 "m" 1 1 (by decide) _ (by decide),
   C2_placement_amended.2 _ 3 "n" 1 1 (by decide) (by decide) (by decide) _ (by decide)⟩

/-! ### Drag commit semantics (C3) -/

/-- C3 counterexample: an out-of-bounds final candidate does *not* revert.
Dropping the order-book widget (at `(0,0)`, `w = 3`) on grid column 11 makes
the candidate span `[11, 14)`, beyond the 12 columns; the code clamps it to
`x = 9` and commits, so the stored rectangle changes instead of reverting. -/
theorem C3_counterexample :
    GRID_COLS < 11 + 3
    ∧ (addWidget initialState .orderbook none "a").layouts.lg
      = [{ i := "a", x := 0, y := 0, w := 3, h := 5, minW := 2, minH := 3 }]
    ∧ (moveWidgetToPosition (addWidget initialState .orderbook none "a")
        .lg "a" 11 0).layouts.lg
      = [{ i := "a", x := 9, y := 0, w := 3, h := 5, minW := 2, minH := 3 }]
    ∧ (moveWidgetToPosition (addWidget initialState .orderbook none "a")
        .lg "a" 11 0).layouts.lg
      ≠ (addWidget initialState .orderbook none "a").layouts.lg :=
  ⟨by decide, by decide, by decide, by decide⟩

/-- C3 amended (proved): a *colliding* final candidate (after the bounds
clamp) reverts the gesture completely — the state is exactly the pre-gesture
state — and any commit leaves every other item's entry unchanged; an
out-of-bounds candidate is clamped into the grid and committed when
collision-free rather than reverted (see `C3_counterexample`). -/
theorem C3_drag_revert_amended (s : WorkspaceState) (bp : Bp)
    (widgetId : String) (x y : Int) :
    (∀ wl, (getBp s.layouts bp).find? (fun l => l.i == widgetId) = some wl →
      hasCollision (getBp s.layouts bp) (dragCandidate wl x y) widgetId = true →
      moveWidgetToPosition s bp widgetId x y = s)
    ∧ (∀ l ∈ getBp s.layouts bp, l.i ≠ widgetId →
        l ∈ getBp (moveWidgetToPosition s bp widgetId x y).layouts bp) := by
  constructor
  · intro wl hfind hcol
    unfold moveWidgetToPosition
    rw [hfind]
    simp [hcol]
  · intro l hl hne
    unfold moveWidgetToPosition
    cases hfind : (getBp s.layouts bp).find? (fun item => item.i == widgetId) with
    | none => exact hl
    | some wl =>
      by_cases hc : hasCollision (getBp s.layouts bp) (dragCandidate wl x y) widgetId = true
      · simp only [hc, if_true]
        exact hl
      · have hc' : hasCollision (getBp s.layouts bp) (dragCandidate wl x y) widgetId = false :=
          Bool.eq_false_iff.mpr (by simpa using hc)
        simp only [hc', Bool.false_eq_true, if_false]
        cases bp <;>
          exact List.mem_map.mpr ⟨l, hl, by simp [hne]⟩

/-- Witness for the amended C3: with an order book at `(0,0)` and a
watchlist at `(0,5)`, dropping the order book at `(0,4)` collides with the
watchlist and the state is fully reverted. -/
theorem C3_drag_revert_amended_witness :
    moveWidgetToPosition
      (addWidget (addWidget initialState .orderbook none "a") .watchlist none "b")
      .lg "a" 0 4
      = addWidget (addWidget initialState .orderbook none "a") .watchlist none "b" :=
  (C3_drag_revert_amended _ .lg "a" 0 4).1
    { i := "a", x := 0, y := 0, w := 3, h := 5, minW := 2, minH := 3 }
    (by decide) (by decide)

/-! ### Resize gesture end (C4) -/

/-- Scenario D's initial component state: a fresh grid hosting one order
book widget (`w = 3`, `h = 5`) at the `lg` breakpoint. -/
def scenarioD_grid0 : GridComp :=
  { store := addWidget initialState .orderbook none "a"
    currentBreakpoint := .lg
    draggedWidgetId := none
    resizingWidgetId := none
    resizeStartPos := (0, 0)
    resizeStartSize := (0, 0)
    placeholder := none }

/-- Concrete container geometry: a 954px-wide container with 12px padding,
giving an exact column width of `(930 - 66) / 12 = 72` pixels. -/
def geomD : ContainerGeom :=
  { left := 0, top := 0, width := 954
    paddingLeft := 12, paddingTop := 12, paddingRight := 12 }

/-- Scenario D after pressing the resize handle at pixel `(228, 0)` and
moving to `(384, 0)` — a 156px = two-column widening, so the previewed width
is `3 + 2 = 5`. -/
def scenarioD_grid2 : GridComp :=
  handleResizeMove (handleResizeStart scenarioD_grid0 "a" 228 0) geomD 384 0

/-- C4 (code bug): the resize commit never happens.  `handleResizeEnd` calls
`hidePlaceholder()` — which sets the placeholder's `display` to `'none'` —
*before* testing `this.placeholder.style.display !== 'none'`, so the test is
always false and `resizeWidget` (its only caller) is unreachable: the store
is unchanged by every `handleResizeEnd`.  In Scenario D the preview does
reach `w = 5`, yet after mouse-up the committed width is still 3, not the
claimed 5. -/
theorem C4_resizeEnd_never_commits :
    (∀ g : GridComp, (handleResizeEnd g).store = g.store)
    ∧ scenarioD_grid2.placeholder
      = some { x := 0, y := 0, w := 5, h := 5, visible := true }
    ∧ (handleResizeEnd scenarioD_grid2).store = scenarioD_grid0.store
    ∧ (scenarioD_grid0.store.layouts.lg.map fun l => l.w) = [3] := by
  refine ⟨?_, by decide, by decide, by decide⟩
  intro g
  unfold handleResizeEnd
  split
  · rfl
  · cases hq : g.placeholder with
    | none => simp [hidePlaceholder, hq]
    | some q => simp [hidePlaceholder, hq]

/-! ### Preview handlers never write the model (C8) -/

/-- C8 (confirmed): neither the dragover preview nor the resize-move preview
writes the layout model — the workspace store is unchanged by both; only the
commit transitions (`handleDrop` → `moveWidgetToPosition`,
`handleResizeEnd` → `resizeWidget`) can write it. -/
theorem C8_preview_no_model_write (g : GridComp) (geom : ContainerGeom)
    (clientX clientY : ℚ) :
    (handleDragOver g geom clientX clientY).store = g.store
    ∧ (handleResizeMove g geom clientX clientY).store = g.store := by
  constructor
  · unfold handleDragOver
    split
    · rfl
    · split <;> rfl
  · unfold handleResizeMove
    split
    · rfl
    · split <;> rfl

/-! ### NaN pointer coordinates (C6) -/

theorem ltJ_nan_left (y : JNum) : JNum.ltJ JNum.nan y = false := by
  cases y <;> rfl

theorem minJ_nan_right (a : JNum) : JNum.minJ a JNum.nan = JNum.nan := by
  cases a <;> rfl

theorem maxJ_nan_right (a : JNum) : JNum.maxJ a JNum.nan = JNum.nan := by
  cases a <;> rfl

theorem overlapsJ_of_nan_x (a : LayoutItemJ) (ha : a.x = JNum.nan)
    (b : LayoutItemJ) : overlapsJ a b = false := by
  simp [overlapsJ, ha, ltJ_nan_left]

theorem hasCollisionJ_of_nan_x (layout : List LayoutItemJ)
    (temp : LayoutItemJ) (hx : temp.x = JNum.nan) (ex : String) :
    hasCollisionJ layout temp ex = false := by
  simp only [hasCollisionJ, List.any_eq_false]
  intro l hl
  by_cases he : l.i == ex
  · simp [he]
  · simp [he, overlapsJ_of_nan_x temp hx]

theorem find?_mapJ (L : List LayoutItemJ) (wid : String) (nx ny : JNum) :
    ((L.map fun l => if l.i == wid then { l with x := nx, y := ny } else l).find?
      (fun l => l.i == wid))
      = (L.find? fun l => l.i == wid).map
          fun l => if l.i == wid then { l with x := nx, y := ny } else l := by
  induction L with
  | nil => rfl
  | cons a t ih =>
    by_cases h : a.i = wid
    · simp only [List.map_cons]
      rw [List.find?_cons_of_pos _ (by simp [h]), List.find?_cons_of_pos _ (by simp [h])]
      simp
    · simp only [List.map_cons]
      rw [List.find?_cons_of_neg _ (by simp [h]), List.find?_cons_of_neg _ (by simp [h]), ih]

/-- C6 counterexample: a drop whose `clientX` is NaN does *not* leave the
dragged item unchanged — the NaN flows through `Math.floor`/`min`/`max` into
`moveWidgetToPosition`, every comparison against the NaN candidate is false
so `hasCollision` reports no collision, and the commit writes `x = NaN` into
the layout. -/
theorem C6_counterexample :
    handleDropJ
      [{ i := "a", x := .num 0, y := .num 0, w := .num 3, h := .num 5,
         minW := .num 2, minH := .num 3 }]
      geomD (some "a") JNum.nan (JNum.num 0)
      = [{ i := "a", x := JNum.nan, y := .num 0, w := .num 3, h := .num 5,
           minW := .num 2, minH := .num 3 }]
    ∧ handleDropJ
      [{ i := "a", x := .num 0, y := .num 0, w := .num 3, h := .num 5,
         minW := .num 2, minH := .num 3 }]
      geomD (some "a") JNum.nan (JNum.num 0)
      ≠ [{ i := "a", x := .num 0, y := .num 0, w := .num 3, h := .num 5,
           minW := .num 2, minH := .num 3 }] :=
  ⟨by decide, by decide⟩

/-- C6 amended (proved): non-finite pointer coordinates are *not* ignored.
For every layout containing the dragged id, a drop with `clientX = NaN`
commits `x = NaN` on the dragged item (the stored entry changes rather than
the event being treated as no movement). -/
theorem C6_nan_drop_commits_nan (layout : List LayoutItemJ)
    (geom : ContainerGeom) (widgetId : String) (wl : LayoutItemJ)
    (hfind : layout.find? (fun l => l.i == widgetId) = some wl)
    (clientY : JNum) :
    ((handleDropJ layout geom (some widgetId) JNum.nan clientY).find?
      (fun l => l.i == widgetId)).map LayoutItemJ.x = some JNum.nan := by
  have hid := List.find?_some hfind
  have hx : (calculateGridPositionJ geom JNum.nan clientY).1 = JNum.nan := rfl
  simp only [handleDropJ, moveWidgetToPositionJ, hfind, hx, minJ_nan_right, maxJ_nan_right]
  rw [hasCollisionJ_of_nan_x layout _ rfl widgetId]
  simp only [Bool.false_eq_true, if_false]
  rw [find?_mapJ, hfind]
  have hweq : wl.i = widgetId := by simpa using hid
  simp [hweq]

/-- Witness for the amended C6: a two-item layout where the drop with NaN
`clientX` commits NaN into the dragged item's `x`. -/
theorem C6_nan_drop_commits_nan_witness :
    ((handleDropJ
        [{ i := "a", x := .num 0, y := .num 0, w := .num 3, h := .num 5,
           minW := .num 2, minH := .num 3 },
         { i := "b", x := .num 3, y := .num 0, w := .num 3, h := .num 5,
           minW := .num 2, minH := .num 3 }]
        geomD (some "a") JNum.nan (JNum.num 7)).find?
      (fun l => l.i == "a")).map LayoutItemJ.x = some JNum.nan :=
  C6_nan_drop_commits_nan _ geomD "a"
    { i := "a", x := .num 0, y := .num 0, w := .num 3, h := .num 5,
      minW := .num 2, minH := .num 3 }
    (by decide) (JNum.num 7)

end KalshiLayout
